import Mathlib

/-!
Shallow embedding of the FitAI application core (`src/app.py`) and proofs
about it.

Conventions:
* Python floats are modelled as exact rationals (`ℚ`); Python ints as `ℤ`.
* Python code that can raise is modelled with `Option` (`none` = exception).
* The exercise dataframe `df_mega` is modelled as `Option (List Record)`:
  `none` when the CSV failed to load (the `df_mega is None` branch), otherwise
  the ordered list of rows that survived the load-time cleaning.
* Python 3.7+ `dict`s iterate in insertion order, so the BFP standards dicts
  are modelled as ordered association lists.
-/

namespace FitAI

/-- One row of the (already cleaned) megaGym catalog: the columns of
`megaGymDataset.csv` that `recommend_exercises` and the template read.
`rating` is non-null by the load-time `dropna(subset=["Rating"])`. -/
structure Record where
  title : String
  type : String
  bodyPart : String
  equipment : String
  level : String
  rating : ℚ
deriving DecidableEq, Repr

/-- `BFP_STANDARDS_MALE` from app.py lines 60-63, in dict insertion order:
label, inclusive lower bound, inclusive upper bound. -/
def BFP_STANDARDS_MALE : List (String × ℚ × ℚ) :=
  [("Essential", 2, 5), ("Athletes", 6, 13), ("Fitness", 14, 17),
   ("Acceptable", 18, 24), ("Obese", 25, 100)]

/-- `BFP_STANDARDS_FEMALE` from app.py lines 64-67. -/
def BFP_STANDARDS_FEMALE : List (String × ℚ × ℚ) :=
  [("Essential", 10, 13), ("Athletes", 14, 20), ("Fitness", 21, 24),
   ("Acceptable", 25, 31), ("Obese", 32, 100)]

/-- `calculate_bmi_case(weight, height)` (app.py lines 69-78): returns
`(bmi, case)` where `bmi = weight / (height * height)` and `case` is picked
by the first matching `if/elif` threshold.  The string literals are exactly
the ones in the source ("sever thinness", "over weight"). -/
def calculate_bmi_case (weight height : ℚ) : ℚ × String :=
  let bmi := weight / (height * height)
  let case :=
    if bmi < 16 then "sever thinness"
    else if bmi < 17 then "moderate thinness"
    else if bmi < 18.5 then "mild thinness"
    else if bmi < 25 then "normal"
    else if bmi < 30 then "over weight"
    else if bmi < 35 then "obese"
    else "severe obese"
  (bmi, case)

/-- `estimate_bfp(bmi, gender, age)` (app.py lines 80-82). -/
def estimate_bfp (bmi : ℚ) (gender : String) (age : ℚ) : ℚ :=
  let g : ℚ := if gender = "male" then 1 else 0
  max 0 (1.20 * bmi + 0.23 * age - 10.8 * g - 5.4)

/-- The `for c,(lo,hi) in table.items(): if lo <= bfp <= hi: return c` loop
inside `bfp_case` (app.py lines 86-88): first inclusive range containing
`bfp` wins; `none` models falling through the loop. -/
def lookupRange : List (String × ℚ × ℚ) → ℚ → Option String
  | [], _ => none
  | (c, lo, hi) :: rest, bfp =>
      if lo ≤ bfp ∧ bfp ≤ hi then some c else lookupRange rest bfp

/-- `bfp_case(bfp, gender)` (app.py lines 84-89): scan the gender-specific
table, defaulting to "Obese" when no range matches. -/
def bfp_case (bfp : ℚ) (gender : String) : String :=
  let table := if gender = "male" then BFP_STANDARDS_MALE else BFP_STANDARDS_FEMALE
  (lookupRange table bfp).getD "Obese"

/-- `get_plan(bmi_case)` (app.py lines 91-96).  A Python dict subscript
raises `KeyError` on a missing key, modelled by `none`. -/
def get_plan : String → Option ℤ
  | "sever thinness" => some 1
  | "moderate thinness" => some 2
  | "mild thinness" => some 3
  | "normal" => some 4
  | "over weight" => some 5
  | "obese" => some 6
  | "severe obese" => some 7
  | _ => none

/-- `f.sort_values("Rating", ascending=False)` (app.py line 118), modelled as
a stable descending sort on the Rating column.  (pandas `nargsort` with
`ascending=False` reverses the row order, argsorts ascending, and reverses the
result, which is a stable descending sort whenever the underlying numpy
argsort is stable; numpy's default algorithm is insertion sort — stable — for
short arrays but is not guaranteed stable in general, see the notes on the
stable-sort claim.) -/
def sortRatingDesc (l : List Record) : List Record :=
  l.mergeSort (fun a b => decide (b.rating ≤ a.rating))

/-- `recommend_exercises(plan)` (app.py lines 98-118), with the module-global
dataframe `df_mega` passed explicitly.  `none` models `df_mega is None`
(CSV failed to load). -/
def recommend_exercises (df : Option (List Record)) (plan : ℤ) : List Record :=
  match df with
  | none => []
  | some rows =>
    let f :=
      if plan = 1 ∨ plan = 2 ∨ plan = 3 then
        rows.filter (fun r =>
          (["Strength", "Olympic Weightlifting"].contains r.type) &&
          (["Beginner", "Intermediate"].contains r.level) &&
          (["Chest", "Back", "Legs", "Shoulders"].contains r.bodyPart))
      else if plan = 4 then
        rows.filter (fun r => r.level == "Intermediate")
      else if plan = 5 ∨ plan = 6 then
        rows.filter (fun r =>
          (["Cardio", "Strength"].contains r.type) &&
          (["Legs", "Glutes", "Full Body", "Abdominals"].contains r.bodyPart))
      else
        rows.filter (fun r => r.level == "Beginner")
    (sortRatingDesc f).take 10

/-- The fitness report dict built by `fitness_route` (app.py lines 362-369).
`bmi` and `bfp` are kept exact here; app.py additionally rounds the two
numbers to 2 decimals for display, which no claim concerns. -/
structure FitnessResult where
  bmi : ℚ
  bmi_case : String
  bfp : ℚ
  bfp_case : String
  plan : ℤ
  exercises : List Record
deriving DecidableEq, Repr

/-- `fitness_route` (app.py lines 348-380), the computational part: parse is
assumed done (arguments already numeric), and the rendered template carries
the dict whose fields we return.  `height = 0` makes `weight / (height*height)`
raise `ZeroDivisionError` in Python, modelled by `none`; no other input is
rejected — the route performs no validation. -/
def fitness_route (weight height : ℚ) (age : ℤ) (gender : String)
    (df : Option (List Record)) : Option FitnessResult :=
  if height = 0 then none
  else
    let bmi := (calculate_bmi_case weight height).1
    let bmi_c := (calculate_bmi_case weight height).2
    let bfp := estimate_bfp bmi gender (age : ℚ)
    let bfp_c := bfp_case bfp gender
    match get_plan bmi_c with
    | none => none
    | some plan =>
        some { bmi := bmi, bmi_case := bmi_c, bfp := bfp, bfp_case := bfp_c,
               plan := plan, exercises := recommend_exercises df plan }

/-! ### The ML prediction pipeline (`ml_predict_route`)

The label encoders and the three classifiers are deserialized from pickle
files that are not part of the repository; only their call sites are in
`src/app.py`.  They are therefore modelled from the spec. -/

/-- Modelled from the spec: a label encoder (the pickled scikit-learn
`LabelEncoder` objects in `label_encoders.pkl` are not in the repository).
Per the spec it is "a bijection between a human-readable label and an integer
code"; "a label must have been present at encoder-construction time to be
encodable; encoding an unseen label is an error, not a fallback".  The code
of a label is its index in the vocabulary `classes` (scikit-learn's
`classes_` array). -/
structure LabelEncoder where
  classes : List String
deriving DecidableEq, Repr

/-- Index of `label` in a vocabulary; `none` when the label is absent
(the encoder raises — "an error, not a fallback"). -/
def indexInVocab : List String → String → Option ℕ
  | [], _ => none
  | c :: cs, label =>
      if label = c then some 0 else (indexInVocab cs label).map (· + 1)

/-- Modelled from the spec: `encoder.transform([label])[0]` — fails (`none`)
on a label outside the vocabulary. -/
def LabelEncoder.transform (e : LabelEncoder) (label : String) : Option ℕ :=
  indexInVocab e.classes label

/-- Modelled from the spec: `encoder.inverse_transform([code])[0]` — fails
(`none`) on a code the encoder cannot invert. -/
def LabelEncoder.inverse_transform (e : LabelEncoder) (code : ℕ) : Option String :=
  e.classes[code]?

/-- The `label_encoders` dict loaded in app.py line 45, keyed by the four
field names used by `ml_predict_route`. -/
structure EncoderSet where
  bodyPart : LabelEncoder
  title : LabelEncoder
  equipment : LabelEncoder
  level : LabelEncoder

/-- `ml_predict_route` (app.py lines 383-397), the computational part:
encode the body part, run the three classifiers (opaque `ℕ → ℕ` capabilities,
`predict([[encoded]])[0]`), decode each output.  Any encode or decode failure
fails the whole pipeline (`none`), as in Python where the corresponding
scikit-learn call raises. -/
def ml_predict_route (enc : EncoderSet) (titleModel equipmentModel levelModel : ℕ → ℕ)
    (bodypart : String) : Option (String × String × String) :=
  match enc.bodyPart.transform bodypart with
  | none => none
  | some encoded =>
    let t := titleModel encoded
    let e := equipmentModel encoded
    let l := levelModel encoded
    match enc.title.inverse_transform t, enc.equipment.inverse_transform e,
        enc.level.inverse_transform l with
    | some ts, some es, some ls => some (ts, es, ls)
    | _, _, _ => none

/-! ### Helper lemmas -/

/-- The seven strings `calculate_bmi_case` can return, in the order of its
`if/elif` chain. -/
def bmiCaseValues : List String :=
  ["sever thinness", "moderate thinness", "mild thinness", "normal",
   "over weight", "obese", "severe obese"]

lemma bmi_case_mem_values (w h : ℚ) :
    (calculate_bmi_case w h).2 ∈ bmiCaseValues := by
  simp only [calculate_bmi_case, bmiCaseValues]
  split_ifs <;> simp

lemma get_plan_total (w h : ℚ) :
    ∃ p : ℤ, get_plan (calculate_bmi_case w h).2 = some p ∧ 1 ≤ p ∧ p ≤ 7 := by
  simp only [calculate_bmi_case]
  split_ifs <;> exact ⟨_, rfl, by norm_num⟩

lemma indexInVocab_eq_none_iff (cs : List String) (label : String) :
    indexInVocab cs label = none ↔ label ∉ cs := by
  induction cs with
  | nil => simp [indexInVocab]
  | cons c cs ih =>
      by_cases hc : label = c <;> simp [indexInVocab, hc, ih]

/-! ### Claims -/

/-- Claim C5: for every bmi, age and gender, the estimated body-fat
percentage equals `max 0 (1.20*bmi + 0.23*age − 10.8*genderMale − 5.4)` with
genderMale = 1 exactly when gender = "male" and 0 otherwise, and is
consequently never negative for any input combination. -/
theorem claim_C5_bfp_formula (bmi age : ℚ) (gender : String) :
    estimate_bfp bmi gender age =
      max 0 (1.20 * bmi + 0.23 * age - 10.8 * (if gender = "male" then 1 else 0) - 5.4) ∧
    0 ≤ estimate_bfp bmi gender age :=
  ⟨rfl, le_max_left 0 _⟩

/-- Claim C10: any gender string other than exactly "male" is silently
processed as female, in both the BFP formula (genderMale = 0) and the BFP
classification table (female standards): the results coincide with those for
gender "female". -/
theorem claim_C10_nonmale_as_female (gender : String) (hg : gender ≠ "male")
    (bmi age bfp : ℚ) :
    estimate_bfp bmi gender age = estimate_bfp bmi "female" age ∧
    bfp_case bfp gender = bfp_case bfp "female" := by
  constructor
  · simp [estimate_bfp, hg]
  · simp [bfp_case, hg]

/-- Witness for C10 at the capitalized gender string "Male". -/
theorem claim_C10_witness :
    estimate_bfp 20 "Male" 30 = estimate_bfp 20 "female" 30 ∧
    bfp_case 25 "Male" = bfp_case 25 "female" :=
  claim_C10_nonmale_as_female "Male" (by decide) 20 30 25

/-- Claim C7: `get_plan` is a total, deterministic bijection from the 7
bmiCase values onto 1..7, assigned in the order the buckets are listed in
`calculate_bmi_case`; in particular the plan id of every classified input is
defined and lies in 1..7. -/
theorem claim_C7_plan_bijection :
    bmiCaseValues.map get_plan =
      [some 1, some 2, some 3, some 4, some 5, some 6, some 7] ∧
    (bmiCaseValues.map get_plan).Nodup ∧
    (∀ w h : ℚ, ∃ p : ℤ,
      get_plan (calculate_bmi_case w h).2 = some p ∧ 1 ≤ p ∧ p ≤ 7) :=
  ⟨rfl, by decide, get_plan_total⟩

/-- Claim C2 counterexample: for gender "male" (a valid gender) and
bfp = 0 (which is ≥ 0 and does not exceed the table's upper bounds), no
range of the male table matches — the male table starts at 2 — so the
no-range-matches fallback fires and returns "Obese", even though
0 > 100 is false.  The fallback is therefore not reachable "only for
bfp > 100". -/
theorem claim_C2_counterexample :
    (0:ℚ) ≤ 0 ∧
    lookupRange BFP_STANDARDS_MALE 0 = none ∧
    bfp_case 0 "male" = "Obese" ∧
    ¬ (100 < (0:ℚ)) := by
  norm_num [bfp_case, lookupRange, BFP_STANDARDS_MALE]

/-- Claim C2 amended: `bfp_case` scans the gender-specific ordered table and
returns the label of the first inclusive range containing bfp; when no range
matches it falls back to "Obese".  The fallback is reachable exactly when
bfp lies in none of the inclusive ranges: below the table's lowest bound
(male < 2, female < 10), strictly inside one of the gaps between consecutive
integer-bounded ranges, or above 100 — not only for bfp > 100. -/
theorem claim_C2_amended (bfp : ℚ) (hb : 0 ≤ bfp) :
    (lookupRange BFP_STANDARDS_MALE bfp = none ↔
      bfp < 2 ∨ (5 < bfp ∧ bfp < 6) ∨ (13 < bfp ∧ bfp < 14) ∨
      (17 < bfp ∧ bfp < 18) ∨ (24 < bfp ∧ bfp < 25) ∨ 100 < bfp) ∧
    (lookupRange BFP_STANDARDS_FEMALE bfp = none ↔
      bfp < 10 ∨ (13 < bfp ∧ bfp < 14) ∨ (20 < bfp ∧ bfp < 21) ∨
      (24 < bfp ∧ bfp < 25) ∨ (31 < bfp ∧ bfp < 32) ∨ 100 < bfp) ∧
    (∀ gender, lookupRange
        (if gender = "male" then BFP_STANDARDS_MALE else BFP_STANDARDS_FEMALE)
        bfp = none → bfp_case bfp gender = "Obese") ∧
    (∀ gender c, lookupRange
        (if gender = "male" then BFP_STANDARDS_MALE else BFP_STANDARDS_FEMALE)
        bfp = some c → bfp_case bfp gender = c) := by
  refine ⟨?_, ?_, ?_, ?_⟩
  · simp only [BFP_STANDARDS_MALE, lookupRange]
    split_ifs with h1 h2 h3 h4 h5
    · simp only [reduceCtorEq, false_iff]
      rintro (h | ⟨ha, hb'⟩ | ⟨ha, hb'⟩ | ⟨ha, hb'⟩ | ⟨ha, hb'⟩ | h) <;>
        linarith [h1.1, h1.2]
    · simp only [reduceCtorEq, false_iff]
      rintro (h | ⟨ha, hb'⟩ | ⟨ha, hb'⟩ | ⟨ha, hb'⟩ | ⟨ha, hb'⟩ | h) <;>
        linarith [h2.1, h2.2]
    · simp only [reduceCtorEq, false_iff]
      rintro (h | ⟨ha, hb'⟩ | ⟨ha, hb'⟩ | ⟨ha, hb'⟩ | ⟨ha, hb'⟩ | h) <;>
        linarith [h3.1, h3.2]
    · simp only [reduceCtorEq, false_iff]
      rintro (h | ⟨ha, hb'⟩ | ⟨ha, hb'⟩ | ⟨ha, hb'⟩ | ⟨ha, hb'⟩ | h) <;>
        linarith [h4.1, h4.2]
    · simp only [reduceCtorEq, false_iff]
      rintro (h | ⟨ha, hb'⟩ | ⟨ha, hb'⟩ | ⟨ha, hb'⟩ | ⟨ha, hb'⟩ | h) <;>
        linarith [h5.1, h5.2]
    · simp only [eq_self_iff_true, true_iff]
      push_neg at h1 h2 h3 h4 h5
      rcases lt_or_le bfp 2 with ha | ha
      · exact Or.inl ha
      have hb1 := h1 ha
      rcases lt_or_le bfp 6 with hc | hc
      · exact Or.inr (Or.inl ⟨hb1, hc⟩)
      have hd := h2 hc
      rcases lt_or_le bfp 14 with he | he
      · exact Or.inr (Or.inr (Or.inl ⟨hd, he⟩))
      have hf := h3 he
      rcases lt_or_le bfp 18 with hg | hg
      · exact Or.inr (Or.inr (Or.inr (Or.inl ⟨hf, hg⟩)))
      have hh := h4 hg
      rcases lt_or_le bfp 25 with hi | hi
      · exact Or.inr (Or.inr (Or.inr (Or.inr (Or.inl ⟨hh, hi⟩))))
      exact Or.inr (Or.inr (Or.inr (Or.inr (Or.inr (h5 hi)))))
  · simp only [BFP_STANDARDS_FEMALE, lookupRange]
    split_ifs with h1 h2 h3 h4 h5
    · simp only [reduceCtorEq, false_iff]
      rintro (h | ⟨ha, hb'⟩ | ⟨ha, hb'⟩ | ⟨ha, hb'⟩ | ⟨ha, hb'⟩ | h) <;>
        linarith [h1.1, h1.2]
    · simp only [reduceCtorEq, false_iff]
      rintro (h | ⟨ha, hb'⟩ | ⟨ha, hb'⟩ | ⟨ha, hb'⟩ | ⟨ha, hb'⟩ | h) <;>
        linarith [h2.1, h2.2]
    · simp only [reduceCtorEq, false_iff]
      rintro (h | ⟨ha, hb'⟩ | ⟨ha, hb'⟩ | ⟨ha, hb'⟩ | ⟨ha, hb'⟩ | h) <;>
        linarith [h3.1, h3.2]
    · simp only [reduceCtorEq, false_iff]
      rintro (h | ⟨ha, hb'⟩ | ⟨ha, hb'⟩ | ⟨ha, hb'⟩ | ⟨ha, hb'⟩ | h) <;>
        linarith [h4.1, h4.2]
    · simp only [reduceCtorEq, false_iff]
      rintro (h | ⟨ha, hb'⟩ | ⟨ha, hb'⟩ | ⟨ha, hb'⟩ | ⟨ha, hb'⟩ | h) <;>
        linarith [h5.1, h5.2]
    · simp only [eq_self_iff_true, true_iff]
      push_neg at h1 h2 h3 h4 h5
      rcases lt_or_le bfp 10 with ha | ha
      · exact Or.inl ha
      have hb1 := h1 ha
      rcases lt_or_le bfp 14 with hc | hc
      · exact Or.inr (Or.inl ⟨hb1, hc⟩)
      have hd := h2 hc
      rcases lt_or_le bfp 21 with he | he
      · exact Or.inr (Or.inr (Or.inl ⟨hd, he⟩))
      have hf := h3 he
      rcases lt_or_le bfp 25 with hg | hg
      · exact Or.inr (Or.inr (Or.inr (Or.inl ⟨hf, hg⟩)))
      have hh := h4 hg
      rcases lt_or_le bfp 32 with hi | hi
      · exact Or.inr (Or.inr (Or.inr (Or.inr (Or.inl ⟨hh, hi⟩))))
      exact Or.inr (Or.inr (Or.inr (Or.inr (Or.inr (h5 hi)))))
  · intro gender hnone
    simp [bfp_case, hnone]
  · intro gender c hsome
    simp [bfp_case, hsome]

/-- Witness for C2 at bfp = 0. -/
theorem claim_C2_witness :
    (lookupRange BFP_STANDARDS_MALE 0 = none ↔
      (0:ℚ) < 2 ∨ (5 < (0:ℚ) ∧ (0:ℚ) < 6) ∨ (13 < (0:ℚ) ∧ (0:ℚ) < 14) ∨
      (17 < (0:ℚ) ∧ (0:ℚ) < 18) ∨ (24 < (0:ℚ) ∧ (0:ℚ) < 25) ∨ 100 < (0:ℚ)) ∧
    (lookupRange BFP_STANDARDS_FEMALE 0 = none ↔
      (0:ℚ) < 10 ∨ (13 < (0:ℚ) ∧ (0:ℚ) < 14) ∨ (20 < (0:ℚ) ∧ (0:ℚ) < 21) ∨
      (24 < (0:ℚ) ∧ (0:ℚ) < 25) ∨ (31 < (0:ℚ) ∧ (0:ℚ) < 32) ∨ 100 < (0:ℚ)) ∧
    (∀ gender, lookupRange
        (if gender = "male" then BFP_STANDARDS_MALE else BFP_STANDARDS_FEMALE)
        0 = none → bfp_case 0 gender = "Obese") ∧
    (∀ gender c, lookupRange
        (if gender = "male" then BFP_STANDARDS_MALE else BFP_STANDARDS_FEMALE)
        0 = some c → bfp_case 0 gender = c) :=
  claim_C2_amended 0 (by norm_num)

/-- Claim C4 counterexample: weight = 40 > 0, height = 7/4 > 0 give
bmi ≈ 13.06 < 16, but the classifier's label is the source's literal
"sever thinness", not the claim's "severe thinness". -/
theorem claim_C4_counterexample :
    (0:ℚ) < 40 ∧ (0:ℚ) < 7/4 ∧ (calculate_bmi_case 40 (7/4)).1 < 16 ∧
    (calculate_bmi_case 40 (7/4)).2 ≠ "severe thinness" := by
  norm_num [calculate_bmi_case]
  decide

/-- Claim C4 amended: for weight > 0 and height > 0 the classifier computes
bmi = weight/height² exactly and buckets it by ascending thresholds with
exclusive upper bounds and first match winning, with the source's literal
labels: <16 → "sever thinness"; <17 → "moderate thinness"; <18.5 → "mild
thinness"; <25 → "normal"; <30 → "over weight"; <35 → "obese"; otherwise
"severe obese". -/
theorem claim_C4_amended (weight height : ℚ) (hw : 0 < weight) (hh : 0 < height) :
    (calculate_bmi_case weight height).1 = weight / (height * height) ∧
    (∀ bmi, bmi = weight / (height * height) →
      (bmi < 16 → (calculate_bmi_case weight height).2 = "sever thinness") ∧
      (16 ≤ bmi → bmi < 17 → (calculate_bmi_case weight height).2 = "moderate thinness") ∧
      (17 ≤ bmi → bmi < 18.5 → (calculate_bmi_case weight height).2 = "mild thinness") ∧
      (18.5 ≤ bmi → bmi < 25 → (calculate_bmi_case weight height).2 = "normal") ∧
      (25 ≤ bmi → bmi < 30 → (calculate_bmi_case weight height).2 = "over weight") ∧
      (30 ≤ bmi → bmi < 35 → (calculate_bmi_case weight height).2 = "obese") ∧
      (35 ≤ bmi → (calculate_bmi_case weight height).2 = "severe obese")) := by
  refine ⟨rfl, ?_⟩
  rintro bmi rfl
  simp only [calculate_bmi_case]
  refine ⟨?_, ?_, ?_, ?_, ?_, ?_, ?_⟩ <;> intros <;>
    split_ifs <;> first | rfl | linarith

/-- Witness for C4 at weight = 70, height = 7/4 (bmi = 1120/49 ≈ 22.86,
bucket "normal"). -/
theorem claim_C4_witness :
    (calculate_bmi_case 70 (7/4)).2 = "normal" :=
  ((claim_C4_amended 70 (7/4) (by norm_num) (by norm_num)).2
      (70 / ((7/4) * (7/4))) rfl).2.2.2.1 (by norm_num) (by norm_num)

/-- Claim C1 counterexample: age = 0 violates the claimed precondition
age > 0 (with valid weight 70, height 7/4, gender "male"), yet
`fitness_route` performs no validation and returns a fully computed
result — bmi = 1120/49 ("normal"), bfp = 393/35 ("Athletes"), plan 4 —
instead of rejecting the input before any computation. -/
theorem claim_C1_counterexample :
    ¬ (0 < (0:ℤ)) ∧
    fitness_route 70 (7/4) 0 "male" none =
      some ⟨1120/49, "normal", 393/35, "Athletes", 4, []⟩ := by
  refine ⟨by norm_num, ?_⟩
  norm_num [fitness_route, calculate_bmi_case, estimate_bfp, bfp_case,
    lookupRange, BFP_STANDARDS_MALE, get_plan, recommend_exercises]

/-- Claim C1 amended: `fitness_route` performs no input validation at all.
Every input with height ≠ 0 — including non-positive weight or age and
gender strings outside {male, female} — is processed through the full
bmi/bfp/plan computation and yields a result; height = 0 fails with a
`ZeroDivisionError` inside the bmi computation, which is an unhandled
arithmetic error, not a validation error. -/
theorem claim_C1_amended (w h : ℚ) (a : ℤ) (g : String)
    (df : Option (List Record)) :
    (h ≠ 0 → (fitness_route w h a g df).isSome = true) ∧
    fitness_route w 0 a g df = none := by
  constructor
  · intro hh
    obtain ⟨p, hp, -, -⟩ := get_plan_total w h
    simp [fitness_route, hh, hp]
  · simp [fitness_route]

/-- Witness for C1: an input with non-positive weight and a gender outside
{male, female} is still processed. -/
theorem claim_C1_witness :
    (fitness_route (-70) 1 30 "other" none).isSome = true ∧
    fitness_route (-70) 0 30 "other" none = none :=
  ⟨(claim_C1_amended (-70) 1 30 "other" none).1 (by norm_num),
   (claim_C1_amended (-70) 0 30 "other" none).2⟩

/-- Claim C6: every record returned by `recommend_exercises` satisfies the
predicate selected by the plan id: for plan ∈ {1,2,3} the type, level and
body-part clauses; for plan = 4 level "Intermediate"; for plan ∈ {5,6} the
type and body-part clauses; for plan = 7 or any other value level
"Beginner". -/
theorem claim_C6_predicate (rows : List Record) (plan : ℤ) (r : Record)
    (hr : r ∈ recommend_exercises (some rows) plan) :
    ((plan = 1 ∨ plan = 2 ∨ plan = 3) →
      (r.type = "Strength" ∨ r.type = "Olympic Weightlifting") ∧
      (r.level = "Beginner" ∨ r.level = "Intermediate") ∧
      (r.bodyPart = "Chest" ∨ r.bodyPart = "Back" ∨ r.bodyPart = "Legs" ∨
        r.bodyPart = "Shoulders")) ∧
    (plan = 4 → r.level = "Intermediate") ∧
    ((plan = 5 ∨ plan = 6) →
      (r.type = "Cardio" ∨ r.type = "Strength") ∧
      (r.bodyPart = "Legs" ∨ r.bodyPart = "Glutes" ∨ r.bodyPart = "Full Body" ∨
        r.bodyPart = "Abdominals")) ∧
    (¬(plan = 1 ∨ plan = 2 ∨ plan = 3 ∨ plan = 4 ∨ plan = 5 ∨ plan = 6) →
      r.level = "Beginner") := by
  simp only [recommend_exercises, sortRatingDesc] at hr
  have hr2 := List.mem_mergeSort.mp (List.mem_of_mem_take hr)
  by_cases h123 : plan = 1 ∨ plan = 2 ∨ plan = 3
  · rw [if_pos h123] at hr2
    have hp := (List.mem_filter.mp hr2).2
    simp only [List.contains, List.elem_eq_mem, List.mem_cons, List.not_mem_nil,
      or_false, Bool.and_eq_true, decide_eq_true_eq] at hp
    exact ⟨fun _ => ⟨hp.1.1, hp.1.2, hp.2⟩, fun h4 => absurd h123 (by omega),
      fun h56 => absurd h123 (by omega), fun ho => absurd h123 (by omega)⟩
  · rw [if_neg h123] at hr2
    by_cases h4 : plan = 4
    · rw [if_pos h4] at hr2
      have hp := (List.mem_filter.mp hr2).2
      simp only [beq_iff_eq] at hp
      exact ⟨fun h => absurd h h123, fun _ => hp,
        fun h56 => absurd h4 (by omega), fun ho => absurd h4 (by omega)⟩
    · rw [if_neg h4] at hr2
      by_cases h56 : plan = 5 ∨ plan = 6
      · rw [if_pos h56] at hr2
        have hp := (List.mem_filter.mp hr2).2
        simp only [List.contains, List.elem_eq_mem, List.mem_cons, List.not_mem_nil,
          or_false, Bool.and_eq_true, decide_eq_true_eq] at hp
        exact ⟨fun h => absurd h h123, fun h => absurd h h4, fun _ => hp,
          fun ho => absurd h56 (by omega)⟩
      · rw [if_neg h56] at hr2
        have hp := (List.mem_filter.mp hr2).2
        simp only [beq_iff_eq] at hp
        exact ⟨fun h => absurd h h123, fun h => absurd h h4,
          fun h => absurd h h56, fun _ => hp⟩

/-- Witness for C6: a one-record catalog and plan 4. -/
theorem claim_C6_witness :
    (⟨"Squat", "Strength", "Legs", "Barbell", "Intermediate", 9⟩ : Record).level
      = "Intermediate" :=
  (claim_C6_predicate [⟨"Squat", "Strength", "Legs", "Barbell", "Intermediate", 9⟩]
      4 ⟨"Squat", "Strength", "Legs", "Barbell", "Intermediate", 9⟩
      (by simp [recommend_exercises, sortRatingDesc, List.mergeSort])).2.1 rfl

/-- Claim C8: when the catalog is unavailable (`df_mega is None`) or empty,
`recommend_exercises` returns the empty list for every plan id and raises no
error, and `fitness_route` still computes and returns the full assessment —
with the same bmi, bmiCase, bfp, bfpCase and plan as it would with any other
catalog — just with an empty exercise list. -/
theorem claim_C8_graceful (plan : ℤ) (w h : ℚ) (a : ℤ) (g : String)
    (df : Option (List Record)) (hh : h ≠ 0) :
    recommend_exercises none plan = [] ∧
    recommend_exercises (some []) plan = [] ∧
    ∃ res res' : FitnessResult,
      fitness_route w h a g df = some res ∧
      fitness_route w h a g none = some res' ∧
      res'.exercises = [] ∧
      res.bmi = res'.bmi ∧ res.bmi_case = res'.bmi_case ∧
      res.bfp = res'.bfp ∧ res.bfp_case = res'.bfp_case ∧ res.plan = res'.plan := by
  obtain ⟨p, hp, -, -⟩ := get_plan_total w h
  refine ⟨rfl, ?_, ?_⟩
  · simp only [recommend_exercises, List.filter_nil]
    split_ifs <;> simp [sortRatingDesc]
  · refine ⟨⟨(calculate_bmi_case w h).1, (calculate_bmi_case w h).2,
      estimate_bfp (calculate_bmi_case w h).1 g (a : ℚ),
      bfp_case (estimate_bfp (calculate_bmi_case w h).1 g (a : ℚ)) g,
      p, recommend_exercises df p⟩,
      ⟨(calculate_bmi_case w h).1, (calculate_bmi_case w h).2,
      estimate_bfp (calculate_bmi_case w h).1 g (a : ℚ),
      bfp_case (estimate_bfp (calculate_bmi_case w h).1 g (a : ℚ)) g,
      p, []⟩, ?_, ?_, rfl, rfl, rfl, rfl, rfl, rfl⟩
    · simp [fitness_route, hh, hp]
    · simp [fitness_route, hh, hp, recommend_exercises]

/-- Witness for C8 at plan 5, a unit input and an absent catalog. -/
theorem claim_C8_witness :
    recommend_exercises none 5 = [] :=
  (claim_C8_graceful 5 1 1 1 "male" none (by norm_num)).1

/-- Claim C9: a body-part label absent from the BodyPart encoder vocabulary
makes the prediction pipeline fail (no default or guessed prediction), and a
decode failure of any of the three classifier outputs likewise fails the
pipeline. -/
theorem claim_C9_unknown_category (enc : EncoderSet)
    (tm em lm : ℕ → ℕ) (bp : String) :
    (bp ∉ enc.bodyPart.classes → ml_predict_route enc tm em lm bp = none) ∧
    (∀ code, enc.bodyPart.transform bp = some code →
      (enc.title.inverse_transform (tm code) = none ∨
       enc.equipment.inverse_transform (em code) = none ∨
       enc.level.inverse_transform (lm code) = none) →
      ml_predict_route enc tm em lm bp = none) := by
  constructor
  · intro hbp
    have ht : enc.bodyPart.transform bp = none :=
      (indexInVocab_eq_none_iff enc.bodyPart.classes bp).mpr hbp
    simp [ml_predict_route, ht]
  · intro code hcode hdec
    simp only [ml_predict_route, hcode]
    rcases ht : enc.title.inverse_transform (tm code) with _ | ts <;>
      rcases he : enc.equipment.inverse_transform (em code) with _ | es <;>
        rcases hl : enc.level.inverse_transform (lm code) with _ | ls <;>
          simp_all

/-- Witness for C9: the label "Unicorn" is not in a one-word vocabulary, so
the pipeline fails. -/
theorem claim_C9_witness :
    ml_predict_route ⟨⟨["Chest"]⟩, ⟨["Pushup"]⟩, ⟨["Bands"]⟩, ⟨["Beginner"]⟩⟩
      (fun _ => 0) (fun _ => 0) (fun _ => 0) "Unicorn" = none :=
  (claim_C9_unknown_category ⟨⟨["Chest"]⟩, ⟨["Pushup"]⟩, ⟨["Bands"]⟩, ⟨["Beginner"]⟩⟩
      (fun _ => 0) (fun _ => 0) (fun _ => 0) "Unicorn").1 (by decide)

end FitAI
